import Mathlib

/-!
Verification of the completion-bridging layer of libsignal's Rust bridge:
the promise/future completers in `rust/bridge/shared/src/ffi/futures.rs` and
`rust/bridge/shared/src/jni/futures.rs`.

The embedding is observational: foreign calls (the C promise callback, JNI
method invocations, log statements, destructor effects) are modelled as
events, and each bridge operation is a pure function producing the list of
events it emits, in order.  External collaborators (the value-conversion
layer, the JVM) are oracles supplied as explicit arguments; a call that can
panic is modelled with type `Except P (...)`, where the `.error p` branch
means the call panicked with payload `p`.
-/

namespace Libsignal

/-- A Rust future, modelled by the number of polls that return `Pending`
before the final poll, together with the final poll's outcome: either a
value of type `A`, or a panic (payload type `P`) escaping from `poll`. -/
structure MFuture (P A : Type) where
  pendsBefore : Nat
  outcome : Except P A

/-- The result of one non-panicking poll of a future. -/
inductive Poll (A : Type) where
  | pending
  | ready (a : A)
  deriving DecidableEq

/-- Polling a future for the `n`-th time (counting from 0): pending while
`n < pendsBefore`, afterwards the final outcome (a ready value, or a panic
propagating out of `poll`). -/
def MFuture.pollAt {P A : Type} (f : MFuture P A) (n : Nat) : Except P (Poll A) :=
  if n < f.pendsBefore then .ok .pending else f.outcome.map Poll.ready

namespace ffi

/-- The bridge error type `SignalFfiError` as seen by this layer: the
`UnexpectedPanic` variant carries the captured panic payload (type `P`);
every other variant is modelled opaquely by `domain` over type `E`. -/
inductive SignalFfiError (E P : Type) where
  | domain (e : E)
  | unexpectedPanic (p : P)
  deriving DecidableEq

/-- `SignalFfiResult<T>` = `Result<T, SignalFfiError>`. -/
abbrev SignalFfiResult (E P T : Type) := Except (SignalFfiError E P) T

/-- `PromiseCompleter` holds the C callback (`promise`, identified opaquely
by a number) and the opaque context pointer (`promise_context`, also a
number).  The result-type information lives in the event type below. -/
structure PromiseCompleter where
  promise : Nat
  promise_context : Nat
  deriving DecidableEq

/-- Observable events of the ffi variant.  `callback` is an invocation of
the `CPromise` function pointer with an error pointer (`none` = null), a
result pointer (`none` = null) and the context; `leakCheckDisabled` is
`std::mem::forget(self)`; `fatalAssert` is `debug_assert!(false, ..)`
firing; `logDropError` is the `log::error!` in `Drop`. -/
inductive FfiEvent (T R E P : Type) where
  | leakCheckDisabled
  | convertInvoked (v : T)
  | callback (promise : Nat) (error : Option (SignalFfiError E P))
      (result : Option R) (context : Nat)
  | fatalAssert
  | logDropError
  deriving DecidableEq

/-- Discriminator: is this event a `CPromise` callback invocation? -/
def FfiEvent.isCallback {T R E P : Type} : FfiEvent T R E P → Bool
  | .callback .. => true
  | _ => false

/-- Discriminator: is this event `std::mem::forget(self)`? -/
def FfiEvent.isLeakCheckDisabled {T R E P : Type} : FfiEvent T R E P → Bool
  | .leakCheckDisabled => true
  | _ => false

/-- Discriminator: is this event an invocation of the conversion capability? -/
def FfiEvent.isConvertInvoked {T R E P : Type} : FfiEvent T R E P → Bool
  | .convertInvoked _ => true
  | _ => false

/-- Discriminator: is this event part of the leak diagnostic (the
`debug_assert!` or the `log::error!` in `Drop for PromiseCompleter`)? -/
def FfiEvent.isDropDiagnostic {T R E P : Type} : FfiEvent T R E P → Bool
  | .fatalAssert => true
  | .logDropError => true
  | _ => false

/-- Lines 46-49 of ffi/futures.rs, the closure passed to `and_then`:
`std::panic::catch_unwind(|| result.convert_into()).unwrap_or_else(|panic|
Err(SignalFfiError::UnexpectedPanic(panic)))`.  The conversion capability
`convert_into` may panic (outer `.error p`) or fail (inner `.error`). -/
def protectConvert {T R E P : Type} (convert_into : T → Except P (SignalFfiResult E P R))
    (v : T) : SignalFfiResult E P R :=
  match convert_into v with
  | .error p => .error (.unexpectedPanic p)
  | .ok r => r

/-- `PromiseCompleter::complete` (ffi/futures.rs lines 38-59).  Destructures
`self`, forgets it (disabling the leak check in `Drop`), converts a success
value inside a protected call, then invokes the promise callback exactly
once with either (null error, non-null result) or (non-null error, null
result) and the stored context.  Returns the list of emitted events. -/
def PromiseCompleter.complete {T R E P : Type}
    (convert_into : T → Except P (SignalFfiResult E P R))
    (self : PromiseCompleter) (result : SignalFfiResult E P T) :
    List (FfiEvent T R E P) :=
  let processed : SignalFfiResult E P R := result.bind (protectConvert convert_into)
  FfiEvent.leakCheckDisabled ::
    ((match result with
      | .ok v => [FfiEvent.convertInvoked v]
      | .error _ => []) ++
     (match processed with
      | .ok value => [FfiEvent.callback self.promise none (some value) self.promise_context]
      | .error err => [FfiEvent.callback self.promise (some err) none self.promise_context]))

/-- `Drop for PromiseCompleter` (ffi/futures.rs lines 62-72): in a debug
build `debug_assert!(false, ..)` panics (so the subsequent `log::error!`
never runs); in a release build the assert is compiled out and the error
log is emitted. -/
def PromiseCompleter.dropGlue {T R E P : Type} (debugBuild : Bool) :
    List (FfiEvent T R E P) :=
  if debugBuild then [FfiEvent.fatalAssert] else [FfiEvent.logDropError]

/-- Rust scope-exit semantics for the by-value `self` of `complete`: when
the call returns, the drop glue runs unless the body forgot `self`. -/
def runWithDrop {T R E P : Type} (debugBuild : Bool) (body : List (FfiEvent T R E P)) :
    List (FfiEvent T R E P) :=
  if body.any FfiEvent.isLeakCheckDisabled then body
  else body ++ PromiseCompleter.dropGlue debugBuild

/-- `ffi::catch_unwind` (ffi/futures.rs lines 116-122):
`future.catch_unwind().unwrap_or_else(|panic| Err(UnexpectedPanic(panic)))`.
Suspension behaviour (`pendsBefore`) is unchanged; only the final outcome
is intercepted. -/
def catch_unwind {T E P : Type} (future : MFuture P (SignalFfiResult E P T)) :
    MFuture P (SignalFfiResult E P T) :=
  { pendsBefore := future.pendsBefore
    outcome :=
      match future.outcome with
      | .ok r => .ok r
      | .error p => .ok (.error (.unexpectedPanic p)) }

end ffi

namespace jni

/-- The bridge error type `SignalJniError` as seen by this layer: the
`UnexpectedPanic` variant carries the captured panic payload (type `P`);
every other variant is modelled opaquely by `domain` over type `E`. -/
inductive SignalJniError (E P : Type) where
  | domain (e : E)
  | unexpectedPanic (p : P)
  deriving DecidableEq

/-- `SignalJniResult<T>` = `Result<T, SignalJniError>`. -/
abbrev SignalJniResult (E P T : Type) := Except (SignalJniError E P) T

/-- `FutureCompleter` (jni/futures.rs lines 14-18): a `JavaVM` handle and a
`GlobalRef` to the Java `CompletableFuture`, both modelled as opaque
numbers.  The `PhantomData` field has no runtime content.  Note: the source
declares no `Drop` implementation for this type. -/
structure FutureCompleter where
  jvm : Nat
  future : Nat
  deriving DecidableEq

/-- Observable events of the jni variant.  `completeCalled` is an
invocation of the Java method `complete` on the future object with the
boxed value; `completeExceptionallyCalled` is an invocation of
`completeExceptionally` with a throwable; `logSecondaryFailure` is the
`log::error!` that runs when error delivery itself fails; `dropFutureRef`
is the release of the global reference; `dropExtra` is the drop of one of
the extra arguments while attached to the JVM. -/
inductive JniEvent (E P JO TH : Type) where
  | logAttachFailed (code : Nat)
  | convertInvoked
  | completeCalled (future : Nat) (obj : JO)
  | completeExceptionallyCalled (future : Nat) (thr : TH)
  | logSecondaryFailure
  | dropFutureRef (future : Nat)
  | dropExtra (id : Nat)
  deriving DecidableEq

/-- Discriminator: is this event an error-level log? -/
def JniEvent.isErrorLog {E P JO TH : Type} : JniEvent E P JO TH → Bool
  | .logAttachFailed _ => true
  | .logSecondaryFailure => true
  | _ => false

/-- Discriminator: is this event a method invocation on the foreign future
object (either `complete` or `completeExceptionally`)? -/
def JniEvent.isDestinationCall {E P JO TH : Type} : JniEvent E P JO TH → Bool
  | .completeCalled .. => true
  | .completeExceptionallyCalled .. => true
  | _ => false

/-- Discriminator: is this event an invocation of the conversion capability? -/
def JniEvent.isConvertInvoked {E P JO TH : Type} : JniEvent E P JO TH → Bool
  | .convertInvoked => true
  | _ => false

/-- Oracles for the external collaborators of
`FutureCompleter::complete_with_extra_args_to_drop`.  Calls made inside the
`std::panic::catch_unwind` block (`convert_into`,
`box_primitive_if_needed`, the `complete` method call) may panic, so their
results carry an outer `Except P`; `convert_to_exception` and the
`completeExceptionally` call run outside the protected block, where a panic
would abort (the source comments that panics can no longer be caught
there), so they are modelled as failing but not panicking. -/
structure JniWorld (T R E P JO TH : Type) where
  attach_current_thread : Except Nat Unit
  convert_into : T → Except P (SignalJniResult E P R)
  box_primitive_if_needed : R → Except P (SignalJniResult E P JO)
  call_complete : Nat → JO → Except P (SignalJniResult E P Unit)
  convert_to_exception : SignalJniError E P → SignalJniResult E P TH
  call_completeExceptionally : Nat → TH → SignalJniResult E P Unit

/-- The protected block of `complete_with_extra_args_to_drop`
(jni/futures.rs lines 64-88): `result.and_then(|result|
catch_unwind(|| result.convert_into(env).and_then(|result|
box_primitive_if_needed(..)?; call_method_checked(.., "complete", ..)))
.unwrap_or_else(|panic| Err(UnexpectedPanic(panic))))`.
Returns the events emitted and the value of `maybe_error`. -/
def FutureCompleter.convertAndComplete {T R E P JO TH : Type}
    (w : JniWorld T R E P JO TH) (future : Nat) (result : SignalJniResult E P T) :
    List (JniEvent E P JO TH) × SignalJniResult E P Unit :=
  match result with
  | .error e => ([], .error e)
  | .ok v =>
    match w.convert_into v with
    | .error p => ([.convertInvoked], .error (.unexpectedPanic p))
    | .ok (.error e) => ([.convertInvoked], .error e)
    | .ok (.ok r) =>
      match w.box_primitive_if_needed r with
      | .error p => ([.convertInvoked], .error (.unexpectedPanic p))
      | .ok (.error e) => ([.convertInvoked], .error e)
      | .ok (.ok obj) =>
        match w.call_complete future obj with
        | .error p => ([.convertInvoked, .completeCalled future obj], .error (.unexpectedPanic p))
        | .ok (.error e) => ([.convertInvoked, .completeCalled future obj], .error e)
        | .ok (.ok _) => ([.convertInvoked, .completeCalled future obj], .ok ())

/-- Error delivery (jni/futures.rs lines 93-111):
`convert_to_exception(.., error, |env, throwable, error|
throwable.and_then(|throwable| call_method_checked(..,
"completeExceptionally", ..)).unwrap_or_else(|completion_error|
log::error!(..)))`.  If converting the error to a throwable fails, no
method is invoked and the failure is logged; if the
`completeExceptionally` call fails, that secondary failure is logged and
nothing further happens. -/
def FutureCompleter.deliverError {T R E P JO TH : Type}
    (w : JniWorld T R E P JO TH) (future : Nat) (err : SignalJniError E P) :
    List (JniEvent E P JO TH) :=
  match w.convert_to_exception err with
  | .error _ => [.logSecondaryFailure]
  | .ok thr =>
    match w.call_completeExceptionally future thr with
    | .ok _ => [.completeExceptionallyCalled future thr]
    | .error _ => [.completeExceptionallyCalled future thr, .logSecondaryFailure]

/-- `FutureCompleter::complete_with_extra_args_to_drop` (jni/futures.rs
lines 43-116).  Destructures `self`; attaches the current thread to the JVM
(on failure: log and return, delivering nothing); converts and delivers the
result; on error, reports through `completeExceptionally`; finally drops
the global reference and the extra arguments while still attached.  The
extra arguments are modelled by the list of their resource identifiers,
whose drops are observable `dropExtra` events. -/
def FutureCompleter.complete_with_extra_args_to_drop {T R E P JO TH : Type}
    (w : JniWorld T R E P JO TH) (self : FutureCompleter)
    (result : SignalJniResult E P T) (extra_args_to_drop : List Nat) :
    List (JniEvent E P JO TH) :=
  match w.attach_current_thread with
  | .error e => [.logAttachFailed e]
  | .ok _ =>
    let step := FutureCompleter.convertAndComplete w self.future result
    step.1 ++
      (match step.2 with
       | .ok _ => []
       | .error err => FutureCompleter.deliverError w self.future err) ++
      (JniEvent.dropFutureRef self.future :: extra_args_to_drop.map JniEvent.dropExtra)

/-- `FutureCompleter::complete` (jni/futures.rs lines 33-36):
`self.complete_with_extra_args_to_drop(result, ())` — the unit extra
argument holds no resources, so its drop emits nothing. -/
def FutureCompleter.complete {T R E P JO TH : Type}
    (w : JniWorld T R E P JO TH) (self : FutureCompleter)
    (result : SignalJniResult E P T) : List (JniEvent E P JO TH) :=
  FutureCompleter.complete_with_extra_args_to_drop w self result []

/-- The jni `FutureCompleter` has no `Drop` implementation in the source;
dropping one only runs the field destructors, releasing the `JavaVM` handle
and the `GlobalRef`.  No assertion fires and nothing is logged, in any
build mode. -/
def FutureCompleter.dropGlue {E P JO TH : Type} (self : FutureCompleter) :
    List (JniEvent E P JO TH) :=
  [.dropFutureRef self.future]

/-- Oracles for the constructions done by `run_future_on_runtime` and
`FutureCompleter::new`: `new_object` is the `CompletableFuture`
constructor, returning the new Java object (a number); `get_java_vm` and
`new_global_ref` are the two fallible steps of `FutureCompleter::new`. -/
structure DriverWorld (E P : Type) where
  new_object : SignalJniResult E P Nat
  get_java_vm : SignalJniResult E P Nat
  new_global_ref : Nat → SignalJniResult E P Nat

/-- `FutureCompleter::new` (jni/futures.rs lines 25-31): stores a handle to
the JVM (`env.get_java_vm()?`) and a global reference to the future
(`env.new_global_ref(future)?`). -/
def FutureCompleter.new {E P : Type} (w : DriverWorld E P) (future : Nat) :
    SignalJniResult E P FutureCompleter :=
  match w.get_java_vm with
  | .error e => .error e
  | .ok jvm =>
    match w.new_global_ref future with
    | .error e => .error e
    | .ok g => .ok ⟨jvm, g⟩

/-- Observable event of the jni driver: handing the computation built
around the given completer to `runtime.run_future`. -/
inductive DriverEvent where
  | runFutureCalled (completer : FutureCompleter)
  deriving DecidableEq

/-- `run_future_on_runtime` (jni/futures.rs lines 144-161): construct the
Java `CompletableFuture` (`new_object(..)?`), construct the completer
(`FutureCompleter::new(env, &java_future)?`), spawn the computation
(`runtime.run_future(make_future(completer))`), and return
`Ok(java_future)`.  Either `?` returns the failure synchronously without
spawning anything. -/
def run_future_on_runtime {E P : Type} (w : DriverWorld E P) :
    List DriverEvent × SignalJniResult E P Nat :=
  match w.new_object with
  | .error e => ([], .error e)
  | .ok java_future =>
    match FutureCompleter.new w java_future with
    | .error e => ([], .error e)
    | .ok completer => ([.runFutureCalled completer], .ok java_future)

/-- `jni::catch_unwind` (jni/futures.rs lines 164-170):
`future.catch_unwind().unwrap_or_else(|panic| Err(UnexpectedPanic(panic)))`.
Suspension behaviour (`pendsBefore`) is unchanged; only the final outcome
is intercepted. -/
def catch_unwind {T E P : Type} (future : MFuture P (SignalJniResult E P T)) :
    MFuture P (SignalJniResult E P T) :=
  { pendsBefore := future.pendsBefore
    outcome :=
      match future.outcome with
      | .ok r => .ok r
      | .error p => .ok (.error (.unexpectedPanic p)) }

end jni

namespace wit

/-- Concrete conversion capability that always panics with payload 5. -/
def ffiConvertPanics : Nat → Except Nat (ffi.SignalFfiResult Nat Nat Nat) :=
  fun _ => .error 5

/-- Concrete conversion capability that succeeds with `v + 1`. -/
def ffiConvertOk : Nat → Except Nat (ffi.SignalFfiResult Nat Nat Nat) :=
  fun v => .ok (.ok (v + 1))

/-- Concrete ffi completer: callback 1, context 2. -/
def c0 : ffi.PromiseCompleter := ⟨1, 2⟩

/-- Concrete jni completer: JVM handle 0, global reference 5. -/
def jc : jni.FutureCompleter := ⟨0, 5⟩

/-- Concrete jni world whose thread attachment fails with code 3. -/
def wAttachFail : jni.JniWorld Nat Nat Nat Nat Nat Nat :=
  ⟨.error 3, fun _ => .ok (.ok 0), fun _ => .ok (.ok 0), fun _ _ => .ok (.ok ()),
    fun _ => .ok 0, fun _ _ => .ok ()⟩

/-- Concrete jni world whose conversion capability panics with payload 6. -/
def wConvertPanics : jni.JniWorld Nat Nat Nat Nat Nat Nat :=
  ⟨.ok (), fun _ => .error 6, fun _ => .ok (.ok 0), fun _ _ => .ok (.ok ()),
    fun _ => .ok 3, fun _ _ => .ok ()⟩

/-- Concrete jni world where `completeExceptionally` itself fails. -/
def wSecondaryFails : jni.JniWorld Nat Nat Nat Nat Nat Nat :=
  ⟨.ok (), fun _ => .ok (.ok 0), fun _ => .ok (.ok 0), fun _ _ => .ok (.ok ()),
    fun _ => .ok 7, fun _ _ => .error (.domain 2)⟩

/-- Concrete jni world where every collaborator succeeds. -/
def wDelivers : jni.JniWorld Nat Nat Nat Nat Nat Nat :=
  ⟨.ok (), fun _ => .ok (.ok 0), fun _ => .ok (.ok 0), fun _ _ => .ok (.ok ()),
    fun _ => .ok 7, fun _ _ => .ok ()⟩

/-- Concrete driver world whose `CompletableFuture` constructor fails. -/
def dFail : jni.DriverWorld Nat Nat := ⟨.error (.domain 1), .ok 0, fun n => .ok n⟩

/-- Concrete driver world where both constructions succeed. -/
def dOk : jni.DriverWorld Nat Nat := ⟨.ok 9, .ok 4, fun n => .ok n⟩

end wit

end Libsignal

namespace Libsignal

/-- Claim C1: every result (success value or domain error) passed to
`PromiseCompleter::complete` causes exactly one invocation of the stored
callback, with the stored opaque context and the stored promise, and with
exactly one branch populated (the error pointer is non-null exactly when
the result pointer is null).  The trace model is synchronous: the callback
event is emitted during `complete` itself. -/
theorem c1_promise_complete_calls_back_exactly_once {T R E P : Type}
    (convert_into : T → Except P (ffi.SignalFfiResult E P R))
    (c : ffi.PromiseCompleter) (result : ffi.SignalFfiResult E P T) :
    ∃ err res,
      (ffi.PromiseCompleter.complete convert_into c result).filter
          ffi.FfiEvent.isCallback
        = [ffi.FfiEvent.callback c.promise err res c.promise_context]
      ∧ (err.isSome ↔ res = none) := by
  cases result with
  | error e =>
      exact ⟨some e, none, by
        simp [ffi.PromiseCompleter.complete, Except.bind, ffi.FfiEvent.isCallback,
          List.filter], by simp⟩
  | ok v =>
      cases h : ffi.protectConvert convert_into v with
      | ok value =>
          exact ⟨none, some value, by
            simp [ffi.PromiseCompleter.complete, Except.bind, h,
              ffi.FfiEvent.isCallback, List.filter], by simp⟩
      | error err =>
          exact ⟨some err, none, by
            simp [ffi.PromiseCompleter.complete, Except.bind, h,
              ffi.FfiEvent.isCallback, List.filter], by simp⟩

/-- Helper: dropping the extra arguments emits no destination calls. -/
theorem filter_isDestinationCall_map_dropExtra {E P JO TH : Type} (l : List Nat) :
    (l.map (@jni.JniEvent.dropExtra E P JO TH)).filter jni.JniEvent.isDestinationCall
      = [] := by
  induction l with
  | nil => rfl
  | cons x xs ih => simp [jni.JniEvent.isDestinationCall, ih]

/-- Claim C2: `catch_unwind` (both variants) yields a future of the same
type that preserves suspension behaviour and non-panicking outcomes, and
turns a panic with payload `p` during advancement into normal completion
with `Err(UnexpectedPanic(p))`. -/
theorem c2_catch_unwind_isolates_panics {T E P A B Q : Type}
    (f : MFuture P (ffi.SignalFfiResult E P T))
    (g : MFuture Q (jni.SignalJniResult A Q B)) :
    ((ffi.catch_unwind f).pendsBefore = f.pendsBefore
      ∧ (∀ r, f.outcome = .ok r → (ffi.catch_unwind f).outcome = .ok r)
      ∧ (∀ p, f.outcome = .error p →
          (ffi.catch_unwind f).outcome = .ok (.error (.unexpectedPanic p))))
    ∧ ((jni.catch_unwind g).pendsBefore = g.pendsBefore
      ∧ (∀ r, g.outcome = .ok r → (jni.catch_unwind g).outcome = .ok r)
      ∧ (∀ p, g.outcome = .error p →
          (jni.catch_unwind g).outcome = .ok (.error (.unexpectedPanic p)))) := by
  refine ⟨⟨rfl, ?_, ?_⟩, ⟨rfl, ?_, ?_⟩⟩ <;> intro x h <;>
    simp [ffi.catch_unwind, jni.catch_unwind, h]

/-- Witness for C2 at concrete futures: one that completes with `Ok 5`
after two pending polls, and one that panics with payload 7. -/
theorem c2_catch_unwind_isolates_panics_witness :
    ((⟨2, .ok (.ok 5)⟩ : MFuture Nat (ffi.SignalFfiResult Nat Nat Nat)).outcome
        = .ok (.ok 5)
      ∧ (ffi.catch_unwind (⟨2, .ok (.ok 5)⟩ :
          MFuture Nat (ffi.SignalFfiResult Nat Nat Nat))).outcome = .ok (.ok 5))
    ∧ ((⟨2, .error 7⟩ : MFuture Nat (jni.SignalJniResult Nat Nat Nat)).outcome
        = .error 7
      ∧ (jni.catch_unwind (⟨2, .error 7⟩ :
          MFuture Nat (jni.SignalJniResult Nat Nat Nat))).outcome
        = .ok (.error (.unexpectedPanic 7))) :=
  ⟨⟨rfl, (c2_catch_unwind_isolates_panics
        (⟨2, .ok (.ok 5)⟩ : MFuture Nat (ffi.SignalFfiResult Nat Nat Nat))
        (⟨2, .error 7⟩ : MFuture Nat (jni.SignalJniResult Nat Nat Nat))).1.2.1
      (.ok 5) rfl⟩,
    ⟨rfl, (c2_catch_unwind_isolates_panics
        (⟨2, .ok (.ok 5)⟩ : MFuture Nat (ffi.SignalFfiResult Nat Nat Nat))
        (⟨2, .error 7⟩ : MFuture Nat (jni.SignalJniResult Nat Nat Nat))).2.2.2
      7 rfl⟩⟩

/-- Claim C3 counterexample: the managed-runtime `FutureCompleter` carries
no Leak Diagnostic.  For the concrete completer ⟨0, 0⟩, its drop glue only
releases the global reference: it emits no error-level log (and the jni
source has no `Drop` implementation, hence no assertion to halt on),
contradicting the claim that both Completer variants diagnose a discard
without `complete`. -/
theorem c3_futurecompleter_drop_emits_no_diagnostic :
    @jni.FutureCompleter.dropGlue Nat Nat Nat Nat ⟨0, 0⟩
      = [jni.JniEvent.dropFutureRef 0]
    ∧ (@jni.FutureCompleter.dropGlue Nat Nat Nat Nat ⟨0, 0⟩).filter
        jni.JniEvent.isErrorLog = [] := by
  decide

/-- Claim C3 (amended): only the callback-variant `PromiseCompleter`
carries a Leak Diagnostic: discarding it without `complete` halts on a hard
assertion in debug builds and emits an error-level log in release builds,
and in either mode no callback notification is made.  The managed-runtime
`FutureCompleter` has no such diagnostic: its drop only releases the
global reference, likewise invoking nothing on the destination. -/
theorem c3_leak_diagnostic_callback_variant_only {T R E P JO TH : Type}
    (c : jni.FutureCompleter) :
    @ffi.PromiseCompleter.dropGlue T R E P true = [ffi.FfiEvent.fatalAssert]
    ∧ @ffi.PromiseCompleter.dropGlue T R E P false = [ffi.FfiEvent.logDropError]
    ∧ (∀ b : Bool, (@ffi.PromiseCompleter.dropGlue T R E P b).filter
        ffi.FfiEvent.isCallback = [])
    ∧ @jni.FutureCompleter.dropGlue E P JO TH c = [jni.JniEvent.dropFutureRef c.future]
    ∧ (@jni.FutureCompleter.dropGlue E P JO TH c).filter
        jni.JniEvent.isDestinationCall = [] := by
  refine ⟨rfl, rfl, ?_, rfl, ?_⟩
  · intro b
    cases b <;> simp [ffi.PromiseCompleter.dropGlue, ffi.FfiEvent.isCallback]
  · simp [jni.FutureCompleter.dropGlue, jni.JniEvent.isDestinationCall]

/-- Claim C6: `complete` disables the leak check as its first observable
effect, strictly before any conversion work, so the drop glue of the
completer never runs in addition (for every input, including ones whose
conversion panics or fails). -/
theorem c6_leak_check_disabled_first {T R E P : Type}
    (convert_into : T → Except P (ffi.SignalFfiResult E P R))
    (c : ffi.PromiseCompleter) (result : ffi.SignalFfiResult E P T)
    (debugBuild : Bool) :
    ffi.runWithDrop debugBuild (ffi.PromiseCompleter.complete convert_into c result)
      = ffi.PromiseCompleter.complete convert_into c result
    ∧ (ffi.PromiseCompleter.complete convert_into c result).head?
      = some ffi.FfiEvent.leakCheckDisabled
    ∧ (ffi.PromiseCompleter.complete convert_into c result).filter
        ffi.FfiEvent.isDropDiagnostic = [] := by
  refine ⟨?_, ?_, ?_⟩
  · simp [ffi.runWithDrop, ffi.PromiseCompleter.complete,
      ffi.FfiEvent.isLeakCheckDisabled]
  · simp [ffi.PromiseCompleter.complete]
  · cases result with
    | error e =>
        simp [ffi.PromiseCompleter.complete, Except.bind,
          ffi.FfiEvent.isDropDiagnostic]
    | ok v =>
        cases h : ffi.protectConvert convert_into v <;>
          simp [ffi.PromiseCompleter.complete, Except.bind, h,
            ffi.FfiEvent.isDropDiagnostic]

/-- Claim C7: the managed-runtime driver reports a construction failure of
the Java future object or of the completer synchronously, never spawning
the computation; on success it spawns the computation and returns the new
Java future object. -/
theorem c7_driver_construction_failure_is_synchronous {E P : Type}
    (w : jni.DriverWorld E P) :
    (∀ e, w.new_object = .error e → jni.run_future_on_runtime w = ([], .error e))
    ∧ (∀ jf e, w.new_object = .ok jf → jni.FutureCompleter.new w jf = .error e →
        jni.run_future_on_runtime w = ([], .error e))
    ∧ (∀ jf comp, w.new_object = .ok jf → jni.FutureCompleter.new w jf = .ok comp →
        jni.run_future_on_runtime w
          = ([jni.DriverEvent.runFutureCalled comp], .ok jf)) := by
  refine ⟨?_, ?_, ?_⟩ <;> intros <;> simp [jni.run_future_on_runtime, *]

/-- Witness for C7: a driver world whose constructor fails returns the
failure with no spawn; one where construction succeeds spawns and returns
the new object. -/
theorem c7_driver_construction_failure_is_synchronous_witness :
    wit.dFail.new_object = .error (.domain 1)
    ∧ jni.run_future_on_runtime wit.dFail = ([], .error (.domain 1))
    ∧ wit.dOk.new_object = .ok 9
    ∧ jni.FutureCompleter.new wit.dOk 9 = .ok ⟨4, 9⟩
    ∧ jni.run_future_on_runtime wit.dOk
      = ([jni.DriverEvent.runFutureCalled ⟨4, 9⟩], .ok 9) :=
  ⟨rfl,
    (c7_driver_construction_failure_is_synchronous wit.dFail).1 (.domain 1) rfl,
    rfl, rfl,
    (c7_driver_construction_failure_is_synchronous wit.dOk).2.2 9 ⟨4, 9⟩ rfl rfl⟩

/-- Claim C4: in both variants a success value is converted inside a
protected call, and a panic with payload `p` raised by the conversion is
delivered to the destination as an `UnexpectedPanic p` error —
observationally the same, from the destination's viewpoint, as calling
`complete` with `Err(UnexpectedPanic p)` directly (which is what a panic
captured inside the wrapped computation produces). -/
theorem c4_conversion_panic_delivered_as_unexpected_panic
    {T R E P A B Q D JO TH : Type}
    (convert_into : T → Except P (ffi.SignalFfiResult E P R))
    (c : ffi.PromiseCompleter) (v : T) (p : P)
    (w : jni.JniWorld A B Q D JO TH) (c2 : jni.FutureCompleter)
    (v2 : A) (p2 : D) (extra : List Nat)
    (hffi : convert_into v = .error p)
    (hatt : w.attach_current_thread = .ok ())
    (hjni : w.convert_into v2 = .error p2) :
    ffi.FfiEvent.convertInvoked v ∈ ffi.PromiseCompleter.complete convert_into c (.ok v)
    ∧ (ffi.PromiseCompleter.complete convert_into c (.ok v)).filter
        ffi.FfiEvent.isCallback
      = [ffi.FfiEvent.callback c.promise (some (.unexpectedPanic p)) none
          c.promise_context]
    ∧ (ffi.PromiseCompleter.complete convert_into c (.ok v)).filter
        ffi.FfiEvent.isCallback
      = (ffi.PromiseCompleter.complete convert_into c
          (.error (.unexpectedPanic p))).filter ffi.FfiEvent.isCallback
    ∧ jni.JniEvent.convertInvoked ∈
        jni.FutureCompleter.complete_with_extra_args_to_drop w c2 (.ok v2) extra
    ∧ (jni.FutureCompleter.complete_with_extra_args_to_drop w c2 (.ok v2)
        extra).filter jni.JniEvent.isDestinationCall
      = (jni.FutureCompleter.complete_with_extra_args_to_drop w c2
          (.error (.unexpectedPanic p2)) extra).filter
          jni.JniEvent.isDestinationCall := by
  have hpc : ffi.protectConvert convert_into v = .error (.unexpectedPanic p) := by
    simp [ffi.protectConvert, hffi]
  have hffiTrace : ffi.PromiseCompleter.complete convert_into c (.ok v)
      = [ffi.FfiEvent.leakCheckDisabled, ffi.FfiEvent.convertInvoked v,
         ffi.FfiEvent.callback c.promise (some (.unexpectedPanic p)) none
           c.promise_context] := by
    simp [ffi.PromiseCompleter.complete, Except.bind, hpc]
  have hffiErr : ffi.PromiseCompleter.complete convert_into c
        (.error (.unexpectedPanic p))
      = [ffi.FfiEvent.leakCheckDisabled,
         ffi.FfiEvent.callback c.promise (some (.unexpectedPanic p)) none
           c.promise_context] := by
    simp [ffi.PromiseCompleter.complete, Except.bind]
  have hstepOk : jni.FutureCompleter.convertAndComplete w c2.future (.ok v2)
      = ([jni.JniEvent.convertInvoked], .error (.unexpectedPanic p2)) := by
    simp [jni.FutureCompleter.convertAndComplete, hjni]
  have hjniOk : jni.FutureCompleter.complete_with_extra_args_to_drop w c2 (.ok v2)
        extra
      = jni.JniEvent.convertInvoked ::
        (jni.FutureCompleter.deliverError w c2.future (.unexpectedPanic p2) ++
          (jni.JniEvent.dropFutureRef c2.future ::
            extra.map jni.JniEvent.dropExtra)) := by
    simp [jni.FutureCompleter.complete_with_extra_args_to_drop, hatt, hstepOk]
  have hjniErr : jni.FutureCompleter.complete_with_extra_args_to_drop w c2
        (.error (.unexpectedPanic p2)) extra
      = jni.FutureCompleter.deliverError w c2.future (.unexpectedPanic p2) ++
        (jni.JniEvent.dropFutureRef c2.future ::
          extra.map jni.JniEvent.dropExtra) := by
    simp [jni.FutureCompleter.complete_with_extra_args_to_drop, hatt,
      jni.FutureCompleter.convertAndComplete]
  refine ⟨?_, ?_, ?_, ?_, ?_⟩
  · rw [hffiTrace]; simp
  · rw [hffiTrace]; simp [ffi.FfiEvent.isCallback]
  · rw [hffiTrace, hffiErr]; simp [ffi.FfiEvent.isCallback]
  · rw [hjniOk]; simp
  · rw [hjniOk, hjniErr]
    simp [jni.JniEvent.isDestinationCall]

/-- Witness for C4: with the concrete panicking conversions (payloads 5 and
6), the callback receives `UnexpectedPanic 5` in its error branch. -/
theorem c4_conversion_panic_delivered_as_unexpected_panic_witness :
    wit.ffiConvertPanics 0 = .error 5
    ∧ wit.wConvertPanics.attach_current_thread = .ok ()
    ∧ wit.wConvertPanics.convert_into 0 = .error 6
    ∧ (ffi.PromiseCompleter.complete wit.ffiConvertPanics wit.c0 (.ok 0)).filter
        ffi.FfiEvent.isCallback
      = [ffi.FfiEvent.callback 1 (some (.unexpectedPanic 5)) none 2] :=
  ⟨rfl, rfl, rfl,
    (c4_conversion_panic_delivered_as_unexpected_panic wit.ffiConvertPanics wit.c0
      0 5 wit.wConvertPanics wit.jc 0 6 [] rfl rfl rfl).2.1⟩

/-- Claim C5: a domain error given to `complete` is delivered to the
destination's error branch exactly as submitted, and the success-value
conversion capability is never invoked on that path (the full traces are
computed for both variants, and contain no conversion event). -/
theorem c5_domain_error_delivered_unchanged
    {T R E P A B Q D JO TH : Type}
    (convert_into : T → Except P (ffi.SignalFfiResult E P R))
    (c : ffi.PromiseCompleter) (e : ffi.SignalFfiError E P)
    (w : jni.JniWorld A B Q D JO TH) (c2 : jni.FutureCompleter)
    (e2 : jni.SignalJniError Q D) (thr : TH) (extra : List Nat)
    (hatt : w.attach_current_thread = .ok ())
    (hthr : w.convert_to_exception e2 = .ok thr)
    (hcall : w.call_completeExceptionally c2.future thr = .ok ()) :
    ffi.PromiseCompleter.complete convert_into c (.error e)
      = [ffi.FfiEvent.leakCheckDisabled,
         ffi.FfiEvent.callback c.promise (some e) none c.promise_context]
    ∧ jni.FutureCompleter.complete_with_extra_args_to_drop w c2 (.error e2) extra
      = jni.JniEvent.completeExceptionallyCalled c2.future thr ::
        jni.JniEvent.dropFutureRef c2.future ::
        extra.map jni.JniEvent.dropExtra := by
  constructor
  · simp [ffi.PromiseCompleter.complete, Except.bind]
  · simp [jni.FutureCompleter.complete_with_extra_args_to_drop, hatt,
      jni.FutureCompleter.convertAndComplete, jni.FutureCompleter.deliverError,
      hthr, hcall]

/-- Witness for C5: the concrete domain errors 9 (ffi) and 1 (jni) are
delivered unchanged, with no conversion invocation in either trace. -/
theorem c5_domain_error_delivered_unchanged_witness :
    wit.wDelivers.attach_current_thread = .ok ()
    ∧ wit.wDelivers.convert_to_exception (.domain 1) = .ok 7
    ∧ wit.wDelivers.call_completeExceptionally wit.jc.future 7 = .ok ()
    ∧ ffi.PromiseCompleter.complete wit.ffiConvertOk wit.c0 (.error (.domain 9))
      = [ffi.FfiEvent.leakCheckDisabled,
         ffi.FfiEvent.callback 1 (some (.domain 9)) none 2]
    ∧ jni.FutureCompleter.complete_with_extra_args_to_drop wit.wDelivers wit.jc
        (.error (.domain 1)) []
      = [jni.JniEvent.completeExceptionallyCalled 5 7,
         jni.JniEvent.dropFutureRef 5] :=
  ⟨rfl, rfl, rfl,
    (c5_domain_error_delivered_unchanged wit.ffiConvertOk wit.c0 (.domain 9)
      wit.wDelivers wit.jc (.domain 1) 7 [] rfl rfl rfl).1,
    (c5_domain_error_delivered_unchanged wit.ffiConvertOk wit.c0 (.domain 9)
      wit.wDelivers wit.jc (.domain 1) 7 [] rfl rfl rfl).2⟩

/-- Claim C8: if attaching the current thread to the JVM fails during the
managed-runtime `complete`, the failure is logged and the function returns
without invoking any method on the foreign future object. -/
theorem c8_attach_failure_logs_and_returns {T R E P JO TH : Type}
    (w : jni.JniWorld T R E P JO TH) (c : jni.FutureCompleter)
    (result : jni.SignalJniResult E P T) (extra : List Nat) (a : Nat)
    (h : w.attach_current_thread = .error a) :
    jni.FutureCompleter.complete_with_extra_args_to_drop w c result extra
      = [jni.JniEvent.logAttachFailed a]
    ∧ (jni.FutureCompleter.complete_with_extra_args_to_drop w c result
        extra).filter jni.JniEvent.isDestinationCall = [] := by
  have ht : jni.FutureCompleter.complete_with_extra_args_to_drop w c result extra
      = [jni.JniEvent.logAttachFailed a] := by
    simp [jni.FutureCompleter.complete_with_extra_args_to_drop, h]
  exact ⟨ht, by simp [ht, jni.JniEvent.isDestinationCall]⟩

/-- Witness for C8: in the concrete world whose attachment fails with code
3, the whole trace is the single attach-failure log. -/
theorem c8_attach_failure_logs_and_returns_witness :
    wit.wAttachFail.attach_current_thread = .error 3
    ∧ jni.FutureCompleter.complete_with_extra_args_to_drop wit.wAttachFail wit.jc
        (.ok 1) [4]
      = [jni.JniEvent.logAttachFailed 3] :=
  ⟨rfl, (c8_attach_failure_logs_and_returns wit.wAttachFail wit.jc (.ok 1) [4] 3
    rfl).1⟩

/-- Claim C9: when `completeExceptionally` itself fails while reporting a
prior error, the secondary failure is only logged: the whole error-delivery
trace is one delivery attempt followed by one log, and `complete` then
returns normally (only the attached-thread drops follow), with no retry
and no further fallback. -/
theorem c9_secondary_delivery_failure_only_logged {T R E P JO TH : Type}
    (w : jni.JniWorld T R E P JO TH) (c : jni.FutureCompleter)
    (e ce : jni.SignalJniError E P) (thr : TH) (extra : List Nat)
    (hatt : w.attach_current_thread = .ok ())
    (hthr : w.convert_to_exception e = .ok thr)
    (hcall : w.call_completeExceptionally c.future thr = .error ce) :
    jni.FutureCompleter.deliverError w c.future e
      = [jni.JniEvent.completeExceptionallyCalled c.future thr,
         jni.JniEvent.logSecondaryFailure]
    ∧ jni.FutureCompleter.complete_with_extra_args_to_drop w c (.error e) extra
      = jni.JniEvent.completeExceptionallyCalled c.future thr ::
        jni.JniEvent.logSecondaryFailure ::
        jni.JniEvent.dropFutureRef c.future :: extra.map jni.JniEvent.dropExtra
    ∧ ((jni.FutureCompleter.complete_with_extra_args_to_drop w c (.error e)
        extra).filter jni.JniEvent.isDestinationCall).length = 1 := by
  have hd : jni.FutureCompleter.deliverError w c.future e
      = [jni.JniEvent.completeExceptionallyCalled c.future thr,
         jni.JniEvent.logSecondaryFailure] := by
    simp [jni.FutureCompleter.deliverError, hthr, hcall]
  have hc : jni.FutureCompleter.complete_with_extra_args_to_drop w c (.error e)
        extra
      = jni.JniEvent.completeExceptionallyCalled c.future thr ::
        jni.JniEvent.logSecondaryFailure ::
        jni.JniEvent.dropFutureRef c.future ::
        extra.map jni.JniEvent.dropExtra := by
    simp [jni.FutureCompleter.complete_with_extra_args_to_drop, hatt,
      jni.FutureCompleter.convertAndComplete, hd]
  refine ⟨hd, hc, ?_⟩
  simp [hc, jni.JniEvent.isDestinationCall,
    filter_isDestinationCall_map_dropExtra]

/-- Witness for C9: in the concrete world where `completeExceptionally`
fails, the trace is one delivery attempt, one log, then the drops. -/
theorem c9_secondary_delivery_failure_only_logged_witness :
    wit.wSecondaryFails.attach_current_thread = .ok ()
    ∧ wit.wSecondaryFails.convert_to_exception (.domain 1) = .ok 7
    ∧ wit.wSecondaryFails.call_completeExceptionally wit.jc.future 7
      = .error (.domain 2)
    ∧ jni.FutureCompleter.complete_with_extra_args_to_drop wit.wSecondaryFails
        wit.jc (.error (.domain 1)) [4]
      = [jni.JniEvent.completeExceptionallyCalled 5 7,
         jni.JniEvent.logSecondaryFailure, jni.JniEvent.dropFutureRef 5,
         jni.JniEvent.dropExtra 4] :=
  ⟨rfl, rfl, rfl,
    (c9_secondary_delivery_failure_only_logged wit.wSecondaryFails wit.jc
      (.domain 1) (.domain 2) 7 [4] rfl rfl rfl).2.1⟩

/-- Claim C10: the short entry point `FutureCompleter::complete` is exactly
the general `complete_with_extra_args_to_drop` applied to the empty extra
argument (the unit value holds no resources, so nothing extra is dropped). -/
theorem c10_complete_is_general_entry_point_at_unit {T R E P JO TH : Type}
    (w : jni.JniWorld T R E P JO TH) (c : jni.FutureCompleter)
    (result : jni.SignalJniResult E P T) :
    jni.FutureCompleter.complete w c result
      = jni.FutureCompleter.complete_with_extra_args_to_drop w c result [] := rfl

end Libsignal
